import Mathlib

/-!
Verification development for the Street Food Recommender pipeline
(`context_loader.py`, `prompt_builder.py`, `kiro_client.py`,
`recommendation_engine.py`).

The Python source is shallowly embedded: every function below is a direct
translation of the correspondingly named Python function.  Python
exceptions become `Except` values, the process-wide response cache becomes
explicit state threading, and the external world (HTTP transport, JSON
codec, md5) is a record of oracle parameters, so every theorem quantifies
over all possible behaviours of those collaborators.
-/

/-! ## Python string/dict semantics helpers -/

/-- Python `str.strip()` (whitespace trimming on both ends), implemented
on the character list so that it evaluates inside the kernel. -/
def pyStrip (s : String) : String :=
  String.mk (((s.data.dropWhile Char.isWhitespace).reverse.dropWhile
    Char.isWhitespace).reverse)

/-- Python `s.lower()` (ASCII case folding; the knowledge data is ASCII). -/
def pyLower (s : String) : String := String.mk (s.data.map Char.toLower)

/-- Python `s.startswith(p)` -/
def pyStartsWith (s p : String) : Bool := p.data.isPrefixOf s.data

/-- Python `s.endswith(p)` -/
def pyEndsWith (s p : String) : Bool :=
  p.data.reverse.isPrefixOf s.data.reverse

/-- Python slicing `s[n:]` (by characters). -/
def pyDrop (s : String) (n : Nat) : String := String.mk (s.data.drop n)

/-- Python slicing `s[:-n]` (by characters). -/
def pyDropRight (s : String) (n : Nat) : String :=
  String.mk (s.data.take (s.data.length - n))

/-- Python `s.split(sep)` for a non-empty separator: split at each
leftmost, non-overlapping occurrence.  `fuel` is the input length, which
bounds the scan. -/
def pySplitAux (sep : List Char) : Nat → List Char → List Char → List String
  | _, acc, [] => [String.mk acc.reverse]
  | 0, acc, rest => [String.mk (acc.reverse ++ rest)]
  | fuel + 1, acc, c :: rest =>
    if sep.isPrefixOf (c :: rest) then
      String.mk acc.reverse ::
        pySplitAux sep fuel [] ((c :: rest).drop sep.length)
    else pySplitAux sep fuel (c :: acc) rest

def pySplit (s sep : String) : List String :=
  pySplitAux sep.data s.data.length [] s.data

/-- Substring containment on char lists: `needle` occurs inside `hay`.
Mirrors Python `needle in hay` for strings (empty needle always matches). -/
def listInfix (needle : List Char) : List Char → Bool
  | [] => needle.isEmpty
  | c :: rest => needle.isPrefixOf (c :: rest) || listInfix needle rest

/-- Python `needle in hay` for strings. -/
def pyIn (needle hay : String) : Bool := listInfix needle.data hay.data

/-- First index-style search: drop everything up to and including the first
occurrence of `needle`; `none` when `needle` does not occur. -/
def dropThroughSub (needle : List Char) : List Char → Option (List Char)
  | [] => if needle.isEmpty then some [] else none
  | c :: rest =>
    if needle.isPrefixOf (c :: rest) then some ((c :: rest).drop needle.length)
    else dropThroughSub needle rest

/-- Everything strictly before the first occurrence of `needle`
(the whole list when `needle` does not occur).  Mirrors the lazy group
`(.*?)(?=needle|\Z)` of the Python regexes. -/
def takeUntilSub (needle : List Char) : List Char → List Char
  | [] => []
  | c :: rest =>
    if needle.isPrefixOf (c :: rest) then []
    else c :: takeUntilSub needle rest

/-! ## JSON value model

`json.loads` produces arbitrary Python values; we model them with a small
JSON tree.  Numbers are integers (no claim touches fractional values). -/

inductive JsonValue where
  | str (s : String)
  | num (n : Int)
  | bool (b : Bool)
  | null
  | arr (xs : List JsonValue)
  | obj (fields : List (String × JsonValue))
deriving Repr

/-- Python truthiness (`if v:`) of a JSON-shaped value. -/
def JsonValue.truthy : JsonValue → Bool
  | .str s => s ≠ ""
  | .num n => n ≠ 0
  | .bool b => b
  | .null => false
  | .arr xs => ¬ xs.isEmpty
  | .obj fields => ¬ fields.isEmpty

/-- Python type name of a value (used in exception texts). -/
def JsonValue.typeName : JsonValue → String
  | .str _ => "str"
  | .num _ => "int"
  | .bool _ => "bool"
  | .null => "NoneType"
  | .arr _ => "list"
  | .obj _ => "dict"

/-- Lookup in a Python dict (keys are unique in dicts produced by
`json.loads`; we take the first occurrence). -/
def pyDictLookup (fields : List (String × JsonValue)) (k : String) :
    Option JsonValue :=
  match fields with
  | [] => none
  | (k₀, v) :: rest => if k₀ = k then some v else pyDictLookup rest k

/-- Python `value.get(k, default)`: `AttributeError` when `value` is not a
dict. -/
def pyGetD (v : JsonValue) (k : String) (dflt : JsonValue) :
    Except String JsonValue :=
  match v with
  | .obj fields => .ok ((pyDictLookup fields k).getD dflt)
  | other =>
    .error ("\x27" ++ other.typeName ++
      "\x27 object has no attribute \x27get\x27")

/-- Python `for x in v`: the list of iterated values, or a `TypeError`.
Iterating a string yields its one-character strings, iterating a dict
yields its keys. -/
def pyIterate : JsonValue → Except String (List JsonValue)
  | .arr xs => .ok xs
  | .str s => .ok (s.data.map fun c => .str (String.mk [c]))
  | .obj fields => .ok (fields.map fun kv => .str kv.1)
  | other =>
    .error ("\x27" ++ other.typeName ++ "\x27 object is not iterable")

/-- Python `v[0]`. -/
def pyIndexZero : JsonValue → Except String JsonValue
  | .arr (x :: _) => .ok x
  | .arr [] => .error "list index out of range"
  | .str s =>
    match s.data with
    | c :: _ => .ok (.str (String.mk [c]))
    | [] => .error "string index out of range"
  | .obj _ => .error "0"
  | other =>
    .error ("\x27" ++ other.typeName ++ "\x27 object is not subscriptable")

/-! ## Data model (`kiro_client.py` dataclasses)

All fields hold `JsonValue` because the Python dataclasses are populated
with whatever values the untrusted JSON reply carried. -/

structure FoodRecommendation where
  food_name : JsonValue
  location : JsonValue
  price_range : JsonValue
  crowd_info : JsonValue
  local_tip : JsonValue
  hygiene_rating : JsonValue
deriving Repr

structure RecommendationResponse where
  area : JsonValue
  recommendations : List FoodRecommendation
  alternative_areas : JsonValue
  local_context : JsonValue
deriving Repr

/-! ## KiroClient (`kiro_client.py`)

The external collaborators of the client are oracle parameters:
`loads`/`dumps` the JSON codec, `md5hex` the cache-key hash, `api_key`
the credential, and `attempts` the outcome of each HTTP attempt. -/

/-- One HTTP attempt outcome: a response (status, decoded JSON body,
body text), a transport timeout, or a connection error. -/
inductive HttpOutcome where
  | response (status : Nat) (json : Except String JsonValue) (text : String)
  | timeout
  | connError

structure KiroEnv where
  loads : String → Except String JsonValue
  dumps : JsonValue → String
  md5hex : String → String
  api_key : Option String
  attempts : Nat → HttpOutcome

/-- `self.max_retries = 3` -/
def max_retries : Nat := 3

/-- `self.retry_delay = 1` (seconds) -/
def retry_delay : Nat := 1

/-- `result.get('choices', [{}])[0].get('message', {}).get('content', '')` -/
def extractContent (result : JsonValue) : Except String JsonValue := do
  let choices ← pyGetD result "choices" (.arr [.obj []])
  let first ← pyIndexZero choices
  let message ← pyGetD first "message" (.obj [])
  pyGetD message "content" (.str "")

/-- Result of `KiroClient._send_kiro_request`: the returned content or the
raised error text, plus the `time.sleep` durations performed (seconds) and
the number of HTTP attempts issued. -/
structure SendResult where
  result : Except String JsonValue
  sleeps : List Nat
  attemptsMade : Nat
deriving Repr

/-- The final `raise Exception("Failed to get response from Kiro after {}
attempts. Last error: {}")`; `str(None)` is `"None"`. -/
def exhaustMsg (lastErr : Option String) : String :=
  "Failed to get response from Kiro after " ++ toString max_retries ++
    " attempts. Last error: " ++ (lastErr.getD "None")

/-- The `for attempt in range(self.max_retries)` loop of
`_send_kiro_request`, recursing on the remaining iteration count.
A result with `attemptsMade` short of the budget reflects a `break` or
`return`; running `fuel` to `0` is the natural loop exit, after which the
final raise fires with the threaded `last_error`. -/
def sendLoop (env : KiroEnv) : Nat → Nat → Option String → SendResult
  | 0, _, lastErr => ⟨.error (exhaustMsg lastErr), [], 0⟩
  | fuel + 1, attempt, lastErr =>
    match env.attempts attempt with
    | .response 200 jsonBody _ =>
      match jsonBody with
      | .error jmsg => ⟨.error (exhaustMsg (some jmsg)), [], 1⟩
      | .ok body =>
        match extractContent body with
        | .ok content => ⟨.ok content, [], 1⟩
        | .error emsg => ⟨.error (exhaustMsg (some emsg)), [], 1⟩
    | .response 429 _ _ =>
      if attempt < max_retries - 1 then
        let r := sendLoop env fuel (attempt + 1) lastErr
        ⟨r.result, retry_delay * 2 ^ attempt :: r.sleeps, r.attemptsMade + 1⟩
      else ⟨.error (exhaustMsg (some "Rate limit exceeded")), [], 1⟩
    | .response code _ text =>
      ⟨.error (exhaustMsg
        (some ("API error: " ++ toString code ++ " - " ++ text))), [], 1⟩
    | .timeout =>
      if attempt < max_retries - 1 then
        let r := sendLoop env fuel (attempt + 1) (some "Request timeout")
        ⟨r.result, retry_delay :: r.sleeps, r.attemptsMade + 1⟩
      else ⟨.error (exhaustMsg (some "Request timeout")), [], 1⟩
    | .connError =>
      if attempt < max_retries - 1 then
        let r := sendLoop env fuel (attempt + 1) (some "Connection error")
        ⟨r.result, retry_delay :: r.sleeps, r.attemptsMade + 1⟩
      else ⟨.error (exhaustMsg (some "Connection error")), [], 1⟩

/-- `KiroClient._get_mock_response`: area extracted from the first line of
the prompt starting with `"Area:"` (guarded by a substring check), else
the default `"Connaught Place"`; the reply is the serialized fixed demo
content. -/
def mockArea (prompt : String) : String :=
  if pyIn "Area:" prompt then
    match (pySplit prompt "\n").filter (fun line => pyStartsWith line "Area:") with
    | [] => "Connaught Place"
    | line :: _ =>
      match pySplit line "Area:" with
      | _ :: part :: _ => pyStrip part
      | _ => "Connaught Place"
  else "Connaught Place"

def mockJson (area : String) : JsonValue :=
  .obj
    [("area", .str area),
     ("recommendations", .arr
       [.obj
         [("food_name", .str "Momos"),
          ("location", .str "Janpath Lane"),
          ("price_range", .str "₹70-90"),
          ("crowd_info", .str "High after 6 PM, best before 7 PM"),
          ("local_tip", .str
            "Avoid the stalls right at metro exit, walk a bit inside for better quality"),
          ("hygiene_rating", .str "Green")],
        .obj
         [("food_name", .str "Chaat"),
          ("location", .str "Palika Bazaar area"),
          ("price_range", .str "₹60-120"),
          ("crowd_info", .str "Busy throughout evening"),
          ("local_tip", .str "Try the bhel puri, it\x27s fresh and tasty"),
          ("hygiene_rating", .str "Yellow")],
        .obj
         [("food_name", .str "Kulfi"),
          ("location", .str "Connaught Circus"),
          ("price_range", .str "₹40-80"),
          ("crowd_info", .str "Popular after dinner"),
          ("local_tip", .str "Perfect for ending your street food tour"),
          ("hygiene_rating", .str "Green")]]),
     ("alternative_areas", .arr [.str "Karol Bagh", .str "Lajpat Nagar"]),
     ("local_context", .str
       ("Bhai, " ++ area ++
        " is great for street food! Evening time is perfect, just watch out for the crowds. The momos here are famous among locals."))]

def get_mock_response (env : KiroEnv) (prompt : String) : String :=
  env.dumps (mockJson (mockArea prompt))

/-- `KiroClient._send_kiro_request`: the offline mock path when no
credential is configured, otherwise the retry loop. -/
def send_kiro_request (env : KiroEnv) (prompt : String) : SendResult :=
  match env.api_key with
  | none => ⟨.ok (.str (get_mock_response env prompt)), [], 0⟩
  | some _ => sendLoop env max_retries 0 none

/-- Loop body of `_parse_response`'s recommendation extraction: one
`FoodRecommendation` built from a surviving dict entry, every field
independently defaulted when missing (`dict.get` with a default). -/
def buildRec (fields : List (String × JsonValue)) : FoodRecommendation :=
  { food_name := (pyDictLookup fields "food_name").getD (.str "Unknown Food")
    location :=
      (pyDictLookup fields "location").getD (.str "Location not specified")
    price_range :=
      (pyDictLookup fields "price_range").getD (.str "Price varies")
    crowd_info :=
      (pyDictLookup fields "crowd_info").getD (.str "Crowd info not available")
    local_tip :=
      (pyDictLookup fields "local_tip").getD (.str "No specific tips")
    hygiene_rating :=
      (pyDictLookup fields "hygiene_rating").getD (.str "Yellow") }

/-- `if cleaned_response.startswith('```json') ... if cleaned_response.endswith('```')` -/
def stripCodeFence (raw : String) : String :=
  let cleaned := pyStrip raw
  let cleaned :=
    if pyStartsWith cleaned "```json" then pyDrop cleaned 7 else cleaned
  let cleaned :=
    if pyEndsWith cleaned "```" then pyDropRight cleaned 3 else cleaned
  pyStrip cleaned

/-- `KiroClient._parse_response` on a string reply.  `json.JSONDecodeError`
and the generic handler produce the two wrapped messages of the source. -/
def parse_response (loads : String → Except String JsonValue)
    (raw : String) : Except String RecommendationResponse :=
  match loads (stripCodeFence raw) with
  | .error e => .error ("Invalid JSON response from Kiro: " ++ e)
  | .ok data =>
    match data with
    | .obj fields =>
      match pyIterate ((pyDictLookup fields "recommendations").getD (.arr [])) with
      | .error e => .error ("Error parsing Kiro response: " ++ e)
      | .ok rawRecs =>
        .ok
          { area := (pyDictLookup fields "area").getD (.str "Unknown Area")
            recommendations := rawRecs.filterMap fun v =>
              match v with
              | .obj recFields => some (buildRec recFields)
              | _ => none
            alternative_areas :=
              (pyDictLookup fields "alternative_areas").getD (.arr [])
            local_context :=
              (pyDictLookup fields "local_context").getD
                (.str "No additional context provided") }
    | _ => .error "Error parsing Kiro response: Response is not a JSON object"

/-- `_parse_response` on an arbitrary transport value: a non-string reply
makes `raw_response.strip()` raise `AttributeError`, caught by the generic
handler inside `_parse_response`. -/
def parse_response_any (loads : String → Except String JsonValue) :
    JsonValue → Except String RecommendationResponse
  | .str s => parse_response loads s
  | other =>
    .error ("Error parsing Kiro response: \x27" ++ other.typeName ++
      "\x27 object has no attribute \x27strip\x27")

/-- `KiroClient._create_fallback_response` -/
def create_fallback_response (error_message : String) :
    RecommendationResponse :=
  { area := .str "Error"
    recommendations :=
      [{ food_name := .str "Service Temporarily Unavailable"
         location := .str "Please try again later"
         price_range := .str "N/A"
         crowd_info := .str "Our AI expert is taking a chai break"
         local_tip := .str ("Error: " ++ error_message)
         hygiene_rating := .str "Yellow" }]
    alternative_areas := .arr []
    local_context := .str
      "Sorry yaar, our Delhi expert AI is having some technical issues. Please try again in a few minutes!" }

/-- The response cache (`self._response_cache`), keyed by md5 hex digests. -/
def KiroCache := List (String × RecommendationResponse)

/-- Cache lookup (`cache_key in self._response_cache`). -/
def cacheLookup (cache : KiroCache) (k : String) :
    Option RecommendationResponse :=
  match cache with
  | [] => none
  | (k₀, v) :: rest => if k₀ = k then some v else cacheLookup rest k

/-- Dict item assignment (`self._response_cache[cache_key] = parsed`). -/
def cacheStore (cache : KiroCache) (k : String) (v : RecommendationResponse) :
    KiroCache :=
  match cache with
  | [] => [(k, v)]
  | (k₀, v₀) :: rest =>
    if k₀ = k then (k, v) :: rest else (k₀, v₀) :: cacheStore rest k v

/-- The send-then-parse segment of `KiroClient.query`'s `try` block. -/
def kiroPipeline (env : KiroEnv) (prompt : String) :
    Except String RecommendationResponse :=
  match (send_kiro_request env prompt).result with
  | .error e => .error e
  | .ok raw => parse_response_any env.loads raw

/-- `KiroClient.query` with the cache state threaded explicitly.  The
`try`/`except` makes it total: any internal failure becomes the synthetic
fallback response, and only a successfully parsed reply is stored. -/
def KiroClient.query (env : KiroEnv) (cache : KiroCache) (prompt : String) :
    RecommendationResponse × KiroCache :=
  let key := env.md5hex prompt
  match cacheLookup cache key with
  | some cached => (cached, cache)
  | none =>
    match kiroPipeline env prompt with
    | .error e => (create_fallback_response e, cache)
    | .ok parsed => (parsed, cacheStore cache key parsed)

/-! ## ContextLoader (`context_loader.py`)

The Python regexes are embedded as explicit character scanners with
`re.findall` / `re.search` / `re.match` semantics (leftmost match,
non-overlapping continuation, greedy or lazy as each pattern demands). -/

/-- `re.findall`: collect matches left to right, restarting after each
match (at least one character forward).  `fuel` is the input length, which
bounds the scan since every step consumes at least one character. -/
def scanAllAux {α : Type} (m : List Char → Option (α × Nat)) :
    Nat → List Char → List α
  | 0, _ => []
  | _ + 1, [] => []
  | fuel + 1, c :: rest =>
    match m (c :: rest) with
    | some (payload, consumed) =>
      payload :: scanAllAux m fuel ((c :: rest).drop (max consumed 1))
    | none => scanAllAux m fuel rest

def scanAll {α : Type} (m : List Char → Option (α × Nat)) (l : List Char) :
    List α :=
  scanAllAux m l.length l

/-- `### ([^#\n]+)` anchored at the current position (greedy group). -/
def matchHeaderAt : List Char → Option (String × Nat)
  | '#' :: '#' :: '#' :: ' ' :: rest =>
    let run := rest.takeWhile fun ch => ch != '#' && ch != '\n'
    if run.isEmpty then none else some (String.mk run, 4 + run.length)
  | _ => none

/-- `\*\*([^*]+)\*\*:` anchored at the current position. -/
def matchBoldLabelAt : List Char → Option (String × Nat)
  | '*' :: '*' :: rest =>
    let run := rest.takeWhile (· != '*')
    if run.isEmpty then none
    else
      match rest.drop run.length with
      | '*' :: '*' :: ':' :: _ => some (String.mk run, 2 + run.length + 3)
      | _ => none
  | _ => none

/-- `- ([^\n]+)` anchored at the current position. -/
def matchBulletAt : List Char → Option (String × Nat)
  | '-' :: ' ' :: rest =>
    let run := rest.takeWhile (· != '\n')
    if run.isEmpty then none else some (String.mk run, 2 + run.length)
  | _ => none

/-- A literal followed by `([^\n]+)`, anchored at the current position
(used for the four tip markers and the labeled time-section lines). -/
def matchLitLineAt (lit : List Char) (l : List Char) : Option (String × Nat) :=
  if lit.isPrefixOf l then
    let run := (l.drop lit.length).takeWhile (· != '\n')
    if run.isEmpty then none else some (String.mk run, lit.length + run.length)
  else none

/-- `- \*\*([^*]+)\*\*:([^-\n]+)` anchored at the line start (`re.match`),
returning both groups. -/
def matchFoodLineAt : List Char → Option (String × String)
  | '-' :: ' ' :: '*' :: '*' :: rest =>
    let nameRun := rest.takeWhile (· != '*')
    if nameRun.isEmpty then none
    else
      match rest.drop nameRun.length with
      | '*' :: '*' :: ':' :: rest₂ =>
        let detailsRun := rest₂.takeWhile fun c => c != '-' && c != '\n'
        if detailsRun.isEmpty then none
        else some (String.mk nameRun, String.mk detailsRun)
      | _ => none
  | _ => none

/-- `re.search(r'₹[\d-]+', s)`: the first currency-marked range
(full match, including the currency sign). -/
def searchRupee : List Char → Option String
  | [] => none
  | '₹' :: rest =>
    let run := rest.takeWhile fun c => c.isDigit || c == '-'
    if run.isEmpty then searchRupee rest else some (String.mk ('₹' :: run))
  | _ :: rest => searchRupee rest

/-- Lexicographic comparison by code point on character lists (the
comparison Python uses for `str`), implemented so that it evaluates
inside the kernel. -/
def pyLexLt : List Char → List Char → Bool
  | _, [] => false
  | [], _ :: _ => true
  | a :: as, b :: bs =>
    if a.toNat < b.toNat then true
    else if b.toNat < a.toNat then false
    else pyLexLt as bs

/-- Python `a < b` on strings. -/
def pyStrLt (a b : String) : Bool := pyLexLt a.data b.data

/-- Python `a <= b` on strings, as a relation for sorting. -/
def pyLeRel (a b : String) : Prop := pyStrLt b a = false

instance : DecidableRel pyLeRel := fun a b =>
  inferInstanceAs (Decidable (pyStrLt b a = false))

/-- Python `sorted` on strings (ascending, lexicographic by code point). -/
def pySorted (l : List String) : List String :=
  List.insertionSort pyLeRel l

/-- The accumulation loop of `_extract_areas`:
`if area and area not in areas: areas.append(area)`. -/
def accumAreas (start : List String) (raw : List String) : List String :=
  raw.foldl
    (fun acc m =>
      let a := pyStrip m
      if a != "" && !(acc.contains a) then acc ++ [a] else acc)
    start

/-- `ContextLoader._extract_areas`: heading matches and bold-label matches
merged in order, deduplicated, then `sorted(list(set(...)))`. -/
def extract_areas (content : String) : List String :=
  let fromHeaders := accumAreas [] (scanAll matchHeaderAt content.data)
  let merged := accumAreas fromHeaders (scanAll matchBoldLabelAt content.data)
  pySorted merged

structure FoodItem where
  name : String
  details : String
  price : String
deriving Repr, DecidableEq

def foodDictHas (d : List (String × List FoodItem)) (k : String) : Bool :=
  d.any (·.1 == k)

def foodDictInit (d : List (String × List FoodItem)) (k : String) :
    List (String × List FoodItem) :=
  if foodDictHas d k then d else d ++ [(k, [])]

def foodDictAppend (d : List (String × List FoodItem)) (k : String)
    (item : FoodItem) : List (String × List FoodItem) :=
  d.map fun kv => if kv.1 == k then (kv.1, kv.2 ++ [item]) else kv

/-- `ContextLoader._extract_food_options`: a line scan carrying the most
recent area header as state.  (The unused module-level `re.findall` of the
food pattern in the source has no effect and is not modelled.) -/
def extract_food_options (content : String) :
    List (String × List FoodItem) :=
  let step := fun (st : Option String × List (String × List FoodItem))
      (line : String) =>
    let (cur, d) :=
      match matchHeaderAt line.data with
      | some (g, _) =>
        let a := pyStrip g
        (some a, foodDictInit st.2 a)
      | none => (st.1, st.2)
    match matchFoodLineAt line.data, cur with
    | some (g₁, g₂), some area =>
      let details := pyStrip g₂
      let price := (searchRupee details.data).getD "Price varies"
      (cur, foodDictAppend d area ⟨pyStrip g₁, details, price⟩)
    | _, _ => (cur, d)
  ((pySplit content "\n").foldl step (none, [])).2

structure TimeRec where
  best_areas : String
  recommended_foods : String
  raw_content : String
deriving Repr, DecidableEq

/-- The lazy `[^#]*?\n` after a time-section heading: the first newline
reachable without crossing a `#`. -/
def afterHeaderNewline : List Char → Option (List Char)
  | [] => none
  | '\n' :: rest => some rest
  | '#' :: _ => none
  | _ :: rest => afterHeaderNewline rest

/-- `re.search(rf'### {period}[^#]*?\n(.*?)(?=###|\Z)', content, re.DOTALL)`:
the section body of the leftmost completable heading occurrence. -/
def searchTimeSection (lit : List Char) : List Char → Option (List Char)
  | [] => none
  | c :: rest =>
    if lit.isPrefixOf (c :: rest) then
      match afterHeaderNewline ((c :: rest).drop lit.length) with
      | some tail => some (takeUntilSub "###".data tail)
      | none => searchTimeSection lit rest
    else searchTimeSection lit rest

/-- `re.search` for a literal label followed by `([^\n]+)`. -/
def searchLabeledLine (lit : List Char) : List Char → Option String
  | [] => none
  | c :: rest =>
    if lit.isPrefixOf (c :: rest) then
      let run := ((c :: rest).drop lit.length).takeWhile (· != '\n')
      if run.isEmpty then searchLabeledLine lit rest else some (String.mk run)
    else searchLabeledLine lit rest

def timeDictSet (d : List (String × TimeRec)) (k : String) (v : TimeRec) :
    List (String × TimeRec) :=
  if d.any (·.1 == k) then d.map fun kv => if kv.1 == k then (k, v) else kv
  else d ++ [(k, v)]

/-- `ContextLoader._extract_time_recommendations` -/
def extract_time_recommendations (content : String) :
    List (String × TimeRec) :=
  ["Morning", "Afternoon", "Evening", "Late Night"].foldl
    (fun d period =>
      match searchTimeSection ("### " ++ period).data content.data with
      | none => d
      | some sec =>
        let best :=
          match searchLabeledLine "**Best Areas**:".data sec with
          | some s => pyStrip s
          | none => ""
        let recf :=
          match searchLabeledLine "**Recommended**:".data sec with
          | some s => pyStrip s
          | none => ""
        timeDictSet d (pyLower period) ⟨best, recf, pyStrip (String.mk sec)⟩)
    []

structure BudgetRec where
  price_range : String
  details : String
deriving Repr, DecidableEq

/-- `### ([^#\n]*(?:Budget|Range|Premium)[^#\n]*)\n(.*?)(?=###|\Z)` anchored
at the current position: a full heading line containing one of the three
keywords, immediately followed by a newline, with a lazy DOTALL body. -/
def matchBudgetAt : List Char → Option ((String × String) × Nat)
  | '#' :: '#' :: '#' :: ' ' :: rest =>
    let hdr := rest.takeWhile fun c => c != '#' && c != '\n'
    match rest.drop hdr.length with
    | '\n' :: tail =>
      let hdrS := String.mk hdr
      if pyIn "Budget" hdrS || pyIn "Range" hdrS || pyIn "Premium" hdrS then
        let body := takeUntilSub "###".data tail
        some ((hdrS, String.mk body), 4 + hdr.length + 1 + body.length)
      else none
    | _ => none
  | _ => none

def budgetDictSet (d : List (String × BudgetRec)) (k : String)
    (v : BudgetRec) : List (String × BudgetRec) :=
  if d.any (·.1 == k) then d.map fun kv => if kv.1 == k then (k, v) else kv
  else d ++ [(k, v)]

/-- `ContextLoader._extract_budget_categories` -/
def extract_budget_categories (content : String) :
    List (String × BudgetRec) :=
  (scanAll matchBudgetAt content.data).foldl
    (fun d m =>
      let price := (searchRupee m.2.data).getD ""
      budgetDictSet d (pyLower (pyStrip m.1)) ⟨price, pyStrip m.2⟩)
    []

/-- `ContextLoader._extract_response_guidelines`: bullet lines inside the
lazy DOTALL span after the literal `## Response Guidelines` heading. -/
def extract_response_guidelines (content : String) : List String :=
  match dropThroughSub "## Response Guidelines\n".data content.data with
  | none => []
  | some tail => scanAll matchBulletAt (takeUntilSub "##".data tail)

/-- `ContextLoader._extract_local_tips`: the four labeled tip markers,
pattern by pattern over the whole document, results stripped. -/
def extract_local_tips (content : String) : List String :=
  ["*Tip*:", "*Warning*:", "*Note*:", "*Best Practice*:"].foldl
    (fun acc p =>
      acc ++ (scanAll (matchLitLineAt p.data) content.data).map pyStrip)
    []

/-- The structured context dictionary built by `_parse_context_file`;
every key is always populated, so the dynamic `'key' in context` presence
checks of the source are identically true on loader-produced values. -/
structure Context where
  raw_content : String
  areas : List String
  food_options : List (String × List FoodItem)
  time_recommendations : List (String × TimeRec)
  budget_categories : List (String × BudgetRec)
  response_guidelines : List String
  local_tips : List String
deriving Repr

/-- Python exception values as surfaced by the loader: the two typed
built-ins it raises internally, and the bare `Exception` wrappers it
re-raises outward. -/
inductive PyExc where
  | fileNotFound (msg : String)
  | valueError (msg : String)
  | generic (msg : String)
deriving Repr, DecidableEq

/-- `str(e)` -/
def PyExc.msg : PyExc → String
  | .fileNotFound m => m
  | .valueError m => m
  | .generic m => m

def PyExc.isGeneric : PyExc → Bool
  | .generic _ => true
  | _ => false

/-- `ContextLoader._validate_context`.  The `field not in context` arm can
never fire (every key is populated), leaving the truthiness checks in
source order; the two later length checks are subsumed by them. -/
def validate_context (ctx : Context) : Except PyExc Unit :=
  if ctx.areas.isEmpty then
    .error (.valueError "Missing required context field: areas")
  else if ctx.food_options.isEmpty then
    .error (.valueError "Missing required context field: food_options")
  else if ctx.response_guidelines.isEmpty then
    .error (.valueError "Missing required context field: response_guidelines")
  else if ctx.areas.length = 0 then
    .error (.valueError "No Delhi areas found in context")
  else if ctx.response_guidelines.length = 0 then
    .error (.valueError "No response guidelines found in context")
  else .ok ()

/-- `ContextLoader._parse_context_file` on the file's text content; its
`except` wraps any inner exception in a bare `Exception`. -/
def parse_context_file (content : String) : Except PyExc Context :=
  let inner : Except PyExc Context :=
    if pyStrip content = "" then
      .error (.valueError "Product context file is empty")
    else
      let ctx : Context :=
        { raw_content := content
          areas := extract_areas content
          food_options := extract_food_options content
          time_recommendations := extract_time_recommendations content
          budget_categories := extract_budget_categories content
          response_guidelines := extract_response_guidelines content
          local_tips := extract_local_tips content }
      match validate_context ctx with
      | .error e => .error e
      | .ok _ => .ok ctx
  match inner with
  | .error e => .error (.generic ("Error parsing context file: " ++ e.msg))
  | .ok ctx => .ok ctx

def defaultContextPath : String := ".kiro/specs/delhi-street-food-app/product.md"

/-- `ContextLoader.load_product_context`, with the filesystem reduced to
the optional content of the backing document (mtime-based re-parsing only
decides when the pure parse re-runs and is invisible to a single load).
Its own `except` wraps everything — including the typed
`FileNotFoundError` — in a bare `Exception`. -/
def load_product_context (path : String) (file : Option String) :
    Except PyExc Context :=
  let inner : Except PyExc Context :=
    match file with
    | none => .error (.fileNotFound ("Product context file not found: " ++ path))
    | some content => parse_context_file content
  match inner with
  | .error e => .error (.generic ("Error loading product context: " ++ e.msg))
  | .ok ctx => .ok ctx

/-! ## PromptBuilder (`prompt_builder.py`) -/

structure UserQuery where
  area : String
  time_preference : String
  food_preferences : String
  budget_category : String
deriving Repr, DecidableEq

/-- `PromptBuilder._get_system_instructions` -/
def system_instructions_text : String :=
  "You are a Delhi street food expert and local guide. You have deep knowledge of Delhi\x27s street food scene and speak like a local Delhiite. Your job is to provide authentic, practical recommendations based ONLY on the local knowledge provided to you.\n\nCRITICAL RULES:\n- Use ONLY the information provided in the CONTEXT section below\n- Never use external knowledge or make up information\n- Respond like a friendly local Delhi person who knows the real street food scene\n- Include practical tips about timing, crowds, and hygiene\n- Use local expressions and slang when appropriate\n- Always mention prices in Indian Rupees (₹)\n- If you don\x27t have information about a specific area or food, say so honestly"

/-- The only instance state of `PromptBuilder`: `self.system_instructions`,
assigned once by `__init__`. -/
structure PromptBuilder where
  system_instructions : String
deriving Repr, DecidableEq

/-- `PromptBuilder.__init__` -/
def PromptBuilder.init : PromptBuilder := ⟨system_instructions_text⟩

def build_system_section (b : PromptBuilder) : String :=
  "SYSTEM INSTRUCTIONS:\n" ++ b.system_instructions

/-- `PromptBuilder._build_context_section`.  Loader-produced contexts
always carry every key, so the `'raw_content' in context` guard holds;
the emptiness guards on the lists are kept. -/
def build_context_section (ctx : Context) : String :=
  let parts := ["=== COMPLETE LOCAL KNOWLEDGE BASE ===", ctx.raw_content]
  let parts := parts ++ ["\n=== QUICK REFERENCE ==="]
  let parts :=
    if !ctx.areas.isEmpty then
      parts ++ ["Available Areas: " ++ String.intercalate ", " ctx.areas]
    else parts
  let parts :=
    if !ctx.response_guidelines.isEmpty then
      parts ++ ["Response Guidelines:"] ++
        ctx.response_guidelines.map (fun g => "- " ++ g)
    else parts
  let parts :=
    if !ctx.local_tips.isEmpty then
      parts ++ ["Local Tips:"] ++ (ctx.local_tips.take 5).map (fun t => "- " ++ t)
    else parts
  "CONTEXT:\n" ++ String.intercalate "\n" parts

/-- `PromptBuilder._create_natural_query` -/
def create_natural_query (uq : UserQuery) : String :=
  let parts : List String := []
  let parts :=
    if uq.area != "" && uq.time_preference != "" then
      parts ++ ["Street food recommendations for " ++ uq.area ++ " during " ++
        pyLower uq.time_preference]
    else if uq.area != "" then
      parts ++ ["Street food recommendations for " ++ uq.area]
    else parts
  let parts :=
    if uq.food_preferences != "" then
      parts ++ ["looking for " ++ uq.food_preferences]
    else parts
  let parts :=
    if uq.budget_category != "" then
      parts ++ ["with " ++ pyLower uq.budget_category ++ " budget"]
    else parts
  if parts.isEmpty then "General street food recommendations"
  else String.intercalate ", " parts

/-- `PromptBuilder._build_user_query_section` -/
def build_user_query_section (uq : UserQuery) : String :=
  String.intercalate "\n"
    ["USER QUERY:",
     "Area: " ++ uq.area,
     "Time: " ++ uq.time_preference,
     "Food Preferences: " ++ uq.food_preferences,
     "Budget: " ++ uq.budget_category,
     "Natural Query: " ++ create_natural_query uq]

/-- `PromptBuilder._build_response_format_section` (fixed text). -/
def response_format_section : String :=
  "RESPONSE FORMAT:\nPlease provide your recommendations in the following JSON structure:\n\n\x7b\n  \"area\": \"requested area name\",\n  \"recommendations\": [\n    \x7b\n      \"food_name\": \"name of the food item\",\n      \"location\": \"specific location or area within the locality\",\n      \"price_range\": \"price in ₹ format (e.g., ₹70-90)\",\n      \"crowd_info\": \"timing and crowd information\",\n      \"local_tip\": \"practical local advice\",\n      \"hygiene_rating\": \"Green/Yellow/Red signal based on local knowledge\"\n    \x7d\n  ],\n  \"alternative_areas\": [\"list of nearby areas if no good options in requested area\"],\n  \"local_context\": \"additional local insights and practical advice\"\n\x7d\n\nIMPORTANT:\n- Respond ONLY with valid JSON\n- Include 3-5 recommendations if available\n- Use local Delhi expressions and tone in the text fields\n- Base everything on the provided context\n- If information is not available, mention it honestly"

/-- `PromptBuilder.build_prompt`.  Of `_validate_inputs`, the `not context`
test is identically false on the populated context structure and the
`isinstance` test on the typed `UserQuery` always passes; the empty-area
`ValueError` propagates through the outer wrapper, and the unknown-area
branch deliberately passes. -/
def build_prompt (b : PromptBuilder) (ctx : Context) (uq : UserQuery) :
    Except String String :=
  if uq.area = "" then
    .error "Error building prompt: User query must include an area"
  else
    .ok (String.intercalate "\n\n"
      [build_system_section b, build_context_section ctx,
       build_user_query_section uq, response_format_section])

/-! ## RecommendationEngine (`recommendation_engine.py`) -/

/-- Python `a or b` on reply-supplied values. -/
def pyOr (a b : JsonValue) : JsonValue := if a.truthy then a else b

/-- `rec.hygiene_rating in ["Green", "Yellow", "Red"]`: a Python list
membership test by equality, which only a string value can pass. -/
def hygieneAllowed : JsonValue → Bool
  | .str s => s == "Green" || s == "Yellow" || s == "Red"
  | _ => false

/-- `response.area == "Unknown Area"` (equality with a string literal). -/
def areaIsUnknown : JsonValue → Bool
  | .str s => s == "Unknown Area"
  | _ => false

/-- `RecommendationEngine._process_area_input`: strip, then exact,
case-insensitive, substring-either-direction, else pass the stripped
string through; empty input raises `ValueError("Area is required")`. -/
def process_area_input (area : String) (ctx : Context) :
    Except String String :=
  if area = "" then .error "Area is required"
  else
    let a := pyStrip area
    if ctx.areas.contains a then .ok a
    else
      match ctx.areas.find? (fun av => pyLower a == pyLower av) with
      | some av => .ok av
      | none =>
        match ctx.areas.find?
            (fun av => pyIn (pyLower a) (pyLower av) || pyIn (pyLower av) (pyLower a)) with
        | some av => .ok av
        | none => .ok a

/-- `RecommendationEngine._get_nearby_areas` -/
def get_nearby_areas (area : String) (ctx : Context) : List String :=
  (ctx.areas.filter (· != area)).take 3

/-- `context.get('food_options', {}).get(area, [])` -/
def foodOptionsLookup (d : List (String × List FoodItem)) (k : String) :
    List FoodItem :=
  match d with
  | [] => []
  | (k₀, v) :: rest => if k₀ = k then v else foodOptionsLookup rest k

/-- `RecommendationEngine._create_fallback_recommendations`.  The loader
populates `name`/`details`/`price` on every food item, so the per-key
defaults of the source cannot fire. -/
def create_fallback_recommendations (uq : UserQuery) (ctx : Context) :
    RecommendationResponse :=
  let area_foods := foodOptionsLookup ctx.food_options uq.area
  let recommendations :=
    if !area_foods.isEmpty then
      (area_foods.take 3).map fun food =>
        { food_name := .str food.name
          location := .str (uq.area ++ " area")
          price_range := .str food.price
          crowd_info := .str ("Popular during " ++ pyLower uq.time_preference)
          local_tip := .str food.details
          hygiene_rating := .str "Yellow" : FoodRecommendation }
    else
      [{ food_name := .str "Local Street Food"
         location := .str (uq.area ++ " market area")
         price_range := .str "Rs.50-150"
         crowd_info := .str "Check local timings"
         local_tip := .str "Ask locals for the best spots in this area"
         hygiene_rating := .str "Yellow" }]
  { area := .str uq.area
    recommendations := recommendations
    alternative_areas := .arr ((get_nearby_areas uq.area ctx).map .str)
    local_context := .str ("Limited information available for " ++ uq.area ++
      ". These are general recommendations.") }

/-- The per-entry cleaning of `_post_process_response`: truthiness
defaulting on every field and the three-member enum check on
`hygiene_rating`. -/
def clean_recommendation (uq : UserQuery) (rec : FoodRecommendation) :
    FoodRecommendation :=
  { food_name := pyOr rec.food_name (.str "Street Food Item")
    location := pyOr rec.location (.str ("Near " ++ uq.area))
    price_range := pyOr rec.price_range (.str "Price varies")
    crowd_info := pyOr rec.crowd_info (.str "Crowd info not available")
    local_tip := pyOr rec.local_tip (.str "Enjoy the local flavors!")
    hygiene_rating :=
      if hygieneAllowed rec.hygiene_rating then rec.hygiene_rating
      else .str "Yellow" }

/-- `RecommendationEngine._post_process_response` -/
def post_process_response (response : RecommendationResponse)
    (uq : UserQuery) (ctx : Context) : RecommendationResponse :=
  if response.recommendations.isEmpty then
    create_fallback_recommendations uq ctx
  else
    let response :=
      { response with
        recommendations := response.recommendations.map (clean_recommendation uq) }
    if !response.area.truthy || areaIsUnknown response.area then
      { response with area := .str uq.area }
    else response

/-- `RecommendationEngine._create_error_response` -/
def create_error_response (error_message : String) (area : String) :
    RecommendationResponse :=
  { area := .str area
    recommendations :=
      [{ food_name := .str "Error"
         location := .str "Service unavailable"
         price_range := .str "N/A"
         crowd_info := .str "Please try again"
         local_tip := .str ("Error: " ++ error_message)
         hygiene_rating := .str "Red" }]
    alternative_areas := .arr []
    local_context := .str
      "Sorry, we\x27re having technical difficulties. Please try again later." }

/-- `RecommendationEngine.get_recommendations`: context load, area
processing, prompt build, gateway query, post-processing, with the
engine-level `except` converting any raised error into the uniform error
response.  `loadRes` stands for `self._get_context()` (the cached load
outcome), `cache` for the gateway cache state. -/
def get_recommendations (env : KiroEnv) (loadRes : Except PyExc Context)
    (cache : KiroCache) (area time_preference food_preferences
    budget_category : String) : RecommendationResponse × KiroCache :=
  match loadRes with
  | .error e => (create_error_response e.msg area, cache)
  | .ok context =>
    match process_area_input area context with
    | .error m => (create_error_response m area, cache)
    | .ok processed_area =>
      let user_query : UserQuery :=
        ⟨processed_area, time_preference, food_preferences, budget_category⟩
      match build_prompt PromptBuilder.init context user_query with
      | .error m => (create_error_response m area, cache)
      | .ok prompt =>
        let (response, cache') := KiroClient.query env cache prompt
        (post_process_response response user_query context, cache')

/-- `RecommendationEngine.get_areas_list`: the context's `areas` value, or
the fixed six-entry default when context loading raised. -/
def get_areas_list (loadRes : Except PyExc Context) : List String :=
  match loadRes with
  | .ok context => context.areas
  | .error _ =>
    ["Connaught Place", "Lajpat Nagar", "Chandni Chowk",
     "Karol Bagh", "Greater Kailash", "Alaknanda"]

/-! ## Concrete fixtures used by witnesses and counterexamples -/

/-- A keyed environment whose every HTTP attempt times out. -/
def envTO : KiroEnv :=
  ⟨fun _ => .error "no json", fun _ => "", fun _ => "k", some "key",
   fun _ => .timeout⟩

/-- A keyed environment whose every HTTP attempt is rate-limited. -/
def env429 : KiroEnv :=
  ⟨fun _ => .error "no json", fun _ => "", fun _ => "k", some "key",
   fun _ => .response 429 (.error "") "Too Many Requests"⟩

/-- An unkeyed (offline) environment whose JSON decoder always yields an
empty object, so every parsed reply has only defaulted fields. -/
def envMock : KiroEnv :=
  ⟨fun _ => .ok (.obj []), fun _ => "", fun _ => "k", none, fun _ => .timeout⟩

/-- A small well-formed knowledge document. -/
def sampleDoc : String :=
  "### Connaught Place\n- **Momos**: Janpath area, ₹70-90\n\n## Response Guidelines\n- Be friendly\n"

def sampleContext : Context :=
  match parse_context_file sampleDoc with
  | .ok c => c
  | .error _ => ⟨"", [], [], [], [], [], []⟩

/-! ## Claim theorems -/

/-- C1: `KiroClient.query` never raises — the embedding is a total
function — and on any internal failure (transport failure, retry
exhaustion, malformed reply) with no cache hit it returns the synthetic
fallback `RecommendationResponse`: its `area` is `"Error"` and its single
recommendation carries the error message in `local_tip` (prefixed
`"Error: "`) with `hygiene_rating = "Yellow"`. -/
theorem query_fallback_on_failure (env : KiroEnv) (cache : KiroCache)
    (prompt : String) (e : String)
    (hmiss : cacheLookup cache (env.md5hex prompt) = none)
    (hfail : kiroPipeline env prompt = .error e) :
    KiroClient.query env cache prompt = (create_fallback_response e, cache) ∧
    (KiroClient.query env cache prompt).1.area = .str "Error" ∧
    (KiroClient.query env cache prompt).1.recommendations.map
      FoodRecommendation.local_tip = [.str ("Error: " ++ e)] ∧
    (KiroClient.query env cache prompt).1.recommendations.map
      FoodRecommendation.hygiene_rating = [.str "Yellow"] := by
  simp [KiroClient.query, hmiss, hfail, create_fallback_response]

/-- C1 witness: with every transport attempt timing out and an empty
cache, `query` returns the fallback carrying the retry-exhaustion
message. -/
theorem query_fallback_on_failure_witness :
    KiroClient.query envTO [] "payload" =
      (create_fallback_response
        "Failed to get response from Kiro after 3 attempts. Last error: Request timeout",
       []) ∧
    (KiroClient.query envTO [] "payload").1.area = .str "Error" ∧
    (KiroClient.query envTO [] "payload").1.recommendations.map
      FoodRecommendation.local_tip =
      [.str "Error: Failed to get response from Kiro after 3 attempts. Last error: Request timeout"] ∧
    (KiroClient.query envTO [] "payload").1.recommendations.map
      FoodRecommendation.hygiene_rating = [.str "Yellow"] := by
  have h := query_fallback_on_failure envTO [] "payload"
    "Failed to get response from Kiro after 3 attempts. Last error: Request timeout"
    rfl rfl
  exact ⟨h.1, h.2.1, h.2.2.1, h.2.2.2⟩

/-- C9: the response cache is never updated on a failed query — on any
pipeline failure the cache after `query` is exactly the cache before —
and in general a call either leaves the cache unchanged or extends it
with the successfully parsed reply it also returns, so a synthetic
fallback response is never inserted and hence never served from cache. -/
theorem query_cache_atomicity (env : KiroEnv) (cache : KiroCache)
    (prompt : String) :
    (∀ e, kiroPipeline env prompt = .error e →
      (KiroClient.query env cache prompt).2 = cache) ∧
    ((KiroClient.query env cache prompt).2 = cache ∨
      ∃ parsed, kiroPipeline env prompt = .ok parsed ∧
        KiroClient.query env cache prompt =
          (parsed, cacheStore cache (env.md5hex prompt) parsed)) := by
  constructor
  · intro e he
    cases hc : cacheLookup cache (env.md5hex prompt) <;>
      simp [KiroClient.query, hc, he]
  · cases hc : cacheLookup cache (env.md5hex prompt)
    · cases hp : kiroPipeline env prompt
      · left; simp [KiroClient.query, hc, hp]
      · rename_i r
        right
        refine ⟨r, rfl, ?_⟩
        simp [KiroClient.query, hc, hp]
    · left; simp [KiroClient.query, hc]

/-- C9 witness: a failing query on the empty cache leaves it empty. -/
theorem query_cache_atomicity_witness :
    (KiroClient.query envTO [] "payload").2 = ([] : KiroCache) :=
  (query_cache_atomicity envTO [] "payload").1
    "Failed to get response from Kiro after 3 attempts. Last error: Request timeout" rfl

/-- C10: `RecommendationEngine.get_areas_list` is total (a function of the
load outcome) and returns the fixed six-entry default list whenever
context loading failed, and the loaded `areas` otherwise. -/
theorem get_areas_list_total :
    (∀ e : PyExc, get_areas_list (.error e) =
      ["Connaught Place", "Lajpat Nagar", "Chandni Chowk",
       "Karol Bagh", "Greater Kailash", "Alaknanda"]) ∧
    (∀ ctx : Context, get_areas_list (.ok ctx) = ctx.areas) :=
  ⟨fun _ => rfl, fun _ => rfl⟩

/-- C4 counterexample: with a credential configured and HTTP 429 on every
attempt, the request loop performs 3 attempts but sleeps only twice — 1s
after the first attempt and 2s after the second; the final attempt raises
instead of sleeping, so the claimed delay sequence 1s, 2s, 4s never
occurs. -/
theorem send_429_backoff_counterexample :
    (send_kiro_request env429 "payload").sleeps = [1, 2] ∧
    (send_kiro_request env429 "payload").attemptsMade = 3 ∧
    (send_kiro_request env429 "payload").sleeps ≠ [1, 2, 4] :=
  ⟨rfl, rfl, by decide⟩

/-- C4 (amended): with a credential configured — (1) HTTP 429 on every
attempt: exactly 3 attempts, backoff sleeps of 1s then 2s
(`retry_delay * 2 ^ attempt` after the first and second attempts, none
after the last), then the rate-limit failure; (2) any other non-200
status: fail immediately after 1 attempt, no sleeps; (3)/(4) timeout or
connection error on every attempt: 3 attempts with flat 1s sleeps (two of
them), then the failure; (5) the gateway boundary converts the exhausted
rate-limit failure into the fallback whose tip carries the rate-limit
message. -/
theorem send_retry_policy (env : KiroEnv) (prompt k : String)
    (hkey : env.api_key = some k) :
    ((∀ a, ∃ j t, env.attempts a = .response 429 j t) →
      send_kiro_request env prompt =
        ⟨.error "Failed to get response from Kiro after 3 attempts. Last error: Rate limit exceeded",
         [1, 2], 3⟩) ∧
    (∀ c j t, env.attempts 0 = .response c j t → c ≠ 200 → c ≠ 429 →
      send_kiro_request env prompt =
        ⟨.error (exhaustMsg (some ("API error: " ++ toString c ++ " - " ++ t))),
         [], 1⟩) ∧
    ((∀ a, env.attempts a = .timeout) →
      send_kiro_request env prompt =
        ⟨.error "Failed to get response from Kiro after 3 attempts. Last error: Request timeout",
         [1, 1], 3⟩) ∧
    ((∀ a, env.attempts a = .connError) →
      send_kiro_request env prompt =
        ⟨.error "Failed to get response from Kiro after 3 attempts. Last error: Connection error",
         [1, 1], 3⟩) ∧
    (∀ cache, (∀ a, ∃ j t, env.attempts a = .response 429 j t) →
      cacheLookup cache (env.md5hex prompt) = none →
      (KiroClient.query env cache prompt).1.recommendations.map
        FoodRecommendation.local_tip =
        [.str "Error: Failed to get response from Kiro after 3 attempts. Last error: Rate limit exceeded"]) := by
  have h429all : (∀ a, ∃ j t, env.attempts a = .response 429 j t) →
      send_kiro_request env prompt =
        ⟨.error "Failed to get response from Kiro after 3 attempts. Last error: Rate limit exceeded",
         [1, 2], 3⟩ := by
    intro h
    obtain ⟨j0, t0, h0⟩ := h 0
    obtain ⟨j1, t1, h1⟩ := h 1
    obtain ⟨j2, t2, h2⟩ := h 2
    simp [send_kiro_request, hkey, max_retries, sendLoop, h0, h1, h2,
      retry_delay, exhaustMsg]
    rfl
  refine ⟨h429all, ?_, ?_, ?_, ?_⟩
  · intro c j t hc h200 h429
    simp only [send_kiro_request, hkey]
    rw [show max_retries = 2 + 1 from rfl, sendLoop, hc]
    split
    · rename_i jb tx heq
      injection heq with hcode hjson htext
      exact absurd hcode h200
    · rename_i jb tx heq
      injection heq with hcode hjson htext
      exact absurd hcode h429
    · rename_i code jx tx hn1 hn2 heq
      obtain ⟨rfl, -, rfl⟩ := heq
      rfl
    · rename_i heq
      exact HttpOutcome.noConfusion heq
    · rename_i heq
      exact HttpOutcome.noConfusion heq
  · intro h
    simp [send_kiro_request, hkey, max_retries, sendLoop, h 0, h 1, h 2,
      retry_delay, exhaustMsg]
    rfl
  · intro h
    simp [send_kiro_request, hkey, max_retries, sendLoop, h 0, h 1, h 2,
      retry_delay, exhaustMsg]
    rfl
  · intro cache h hmiss
    have hsend := h429all h
    have hpipe : kiroPipeline env prompt =
        .error "Failed to get response from Kiro after 3 attempts. Last error: Rate limit exceeded" := by
      simp [kiroPipeline, hsend]
    simp [KiroClient.query, hmiss, hpipe, create_fallback_response]

/-- C4 witness: the all-429 and all-timeout environments realize the
amended retry traces. -/
theorem send_retry_policy_witness :
    send_kiro_request env429 "payload" =
      ⟨.error "Failed to get response from Kiro after 3 attempts. Last error: Rate limit exceeded",
       [1, 2], 3⟩ ∧
    send_kiro_request envTO "payload" =
      ⟨.error "Failed to get response from Kiro after 3 attempts. Last error: Request timeout",
       [1, 1], 3⟩ ∧
    (KiroClient.query env429 [] "payload").1.recommendations.map
      FoodRecommendation.local_tip =
      [.str "Error: Failed to get response from Kiro after 3 attempts. Last error: Rate limit exceeded"] :=
  ⟨(send_retry_policy env429 "payload" "key" rfl).1
      (fun _ => ⟨.error "", "Too Many Requests", rfl⟩),
   (send_retry_policy envTO "payload" "key" rfl).2.2.1 (fun _ => rfl),
   (send_retry_policy env429 "payload" "key" rfl).2.2.2.2 []
      (fun _ => ⟨.error "", "Too Many Requests", rfl⟩) rfl⟩

/-- A decode oracle returning one recommendation entry whose
`hygiene_rating` is the invalid value `"Blue"`. -/
def loadsBlue : String → Except String JsonValue := fun _ =>
  .ok (.obj [("recommendations", .arr [.obj [("hygiene_rating", .str "Blue")]])])

/-- C3 counterexample: `_parse_response` passes the invalid rating
`"Blue"` through unchanged — it is not coerced to `"Yellow"`. -/
theorem parse_blue_counterexample :
    (parse_response loadsBlue "reply").map
      (fun r => r.recommendations.map FoodRecommendation.hygiene_rating) =
      .ok [.str "Blue"] ∧
    ("Blue" : String) ≠ "Yellow" :=
  ⟨rfl, by decide⟩

/-- C3 (amended): in `_parse_response`, `hygiene_rating` is defaulted to
`"Yellow"` exactly when the field is missing from a surviving entry; a
present value — valid or not — is passed through unchanged (the
three-member-enum coercion happens later, in the orchestrator's
`_post_process_response`).  Every recommendation of a successful parse is
built by this per-entry rule. -/
theorem parse_hygiene_policy :
    (∀ fields, pyDictLookup fields "hygiene_rating" = none →
      (buildRec fields).hygiene_rating = .str "Yellow") ∧
    (∀ fields v, pyDictLookup fields "hygiene_rating" = some v →
      (buildRec fields).hygiene_rating = v) ∧
    (∀ loads raw r, parse_response loads raw = .ok r →
      ∀ rec ∈ r.recommendations, ∃ fields, rec = buildRec fields) := by
  refine ⟨?_, ?_, ?_⟩
  · intro fields h
    simp [buildRec, h]
  · intro fields v h
    simp [buildRec, h]
  · intro loads raw r hr rec hrec
    unfold parse_response at hr
    cases hl : loads (stripCodeFence raw) with
    | error e =>
      rw [hl] at hr
      simp at hr
    | ok data =>
      rw [hl] at hr
      dsimp only at hr
      cases data with
      | obj fields =>
        dsimp only at hr
        cases hi : pyIterate
            ((pyDictLookup fields "recommendations").getD (.arr [])) with
        | error e =>
          rw [hi] at hr
          simp at hr
        | ok rawRecs =>
          rw [hi] at hr
          simp only [Except.ok.injEq] at hr
          subst hr
          obtain ⟨a, ha, hfa⟩ := List.mem_filterMap.mp hrec
          cases a with
          | obj fs => exact ⟨fs, by simpa using hfa.symm⟩
          | str s => exact absurd hfa (by simp)
          | num n => exact absurd hfa (by simp)
          | bool b => exact absurd hfa (by simp)
          | null => exact absurd hfa (by simp)
          | arr xs => exact absurd hfa (by simp)
      | str s => simp at hr
      | num n => simp at hr
      | bool b => simp at hr
      | null => simp at hr
      | arr xs => simp at hr

/-- C3 witness: a missing field defaults to `"Yellow"`; a present
`"Blue"` passes through. -/
theorem parse_hygiene_policy_witness :
    (buildRec []).hygiene_rating = .str "Yellow" ∧
    (buildRec [("hygiene_rating", .str "Blue")]).hygiene_rating =
      .str "Blue" :=
  ⟨parse_hygiene_policy.1 [] rfl,
   parse_hygiene_policy.2.1 [("hygiene_rating", .str "Blue")] (.str "Blue") rfl⟩

/-- Every failure of `_parse_context_file` is (re-raised as) a bare
`Exception`. -/
lemma parse_context_file_error_generic (content : String) (pe : PyExc)
    (h : parse_context_file content = .error pe) :
    ∃ m, pe = PyExc.generic m := by
  simp only [parse_context_file] at h
  split at h
  · rename_i e
    rw [Except.error.injEq] at h
    exact ⟨_, h.symm⟩
  · exact absurd h (by simp)

/-- C7 counterexample: a missing backing file surfaces as a *generic*
`Exception` (the wrapped message), not as a typed failure — the typed
`FileNotFoundError` raised internally is swallowed by the
`except Exception` wrapper. -/
theorem load_missing_file_generic :
    load_product_context defaultContextPath none =
      .error (.generic ("Error loading product context: Product context file not found: "
        ++ defaultContextPath)) ∧
    (match load_product_context defaultContextPath none with
     | .error e => e.isGeneric
     | .ok _ => false) = true :=
  ⟨rfl, rfl⟩

/-- C7 (amended): each malformed/empty-document cause still fails the
load, but always with a *generic* `Exception` whose wrapped message
identifies the cause — file not found, blank content, or the first empty
required extraction among `areas`, `food_options`,
`response_guidelines` — and every load failure whatsoever is generic. -/
theorem load_failure_modes (path : String) (file : Option String) :
    (file = none → load_product_context path file =
      .error (.generic ("Error loading product context: Product context file not found: "
        ++ path))) ∧
    (∀ content, file = some content → pyStrip content = "" →
      load_product_context path file =
        .error (.generic "Error loading product context: Error parsing context file: Product context file is empty")) ∧
    (∀ content, file = some content → pyStrip content ≠ "" →
      extract_areas content = [] →
      load_product_context path file =
        .error (.generic "Error loading product context: Error parsing context file: Missing required context field: areas")) ∧
    (∀ content, file = some content → pyStrip content ≠ "" →
      extract_areas content ≠ [] → extract_food_options content = [] →
      load_product_context path file =
        .error (.generic "Error loading product context: Error parsing context file: Missing required context field: food_options")) ∧
    (∀ content, file = some content → pyStrip content ≠ "" →
      extract_areas content ≠ [] → extract_food_options content ≠ [] →
      extract_response_guidelines content = [] →
      load_product_context path file =
        .error (.generic "Error loading product context: Error parsing context file: Missing required context field: response_guidelines")) ∧
    (∀ e, load_product_context path file = .error e → e.isGeneric = true) := by
  refine ⟨?_, ?_, ?_, ?_, ?_, ?_⟩
  · intro h; subst h; rfl
  · intro content h hempty
    subst h
    simp [load_product_context, parse_context_file, hempty, PyExc.msg]
  · intro content h hne hareas
    subst h
    simp [load_product_context, parse_context_file, validate_context, hne,
      hareas, PyExc.msg]
  · intro content h hne hareas hfoods
    subst h
    have h1 : (extract_areas content).isEmpty = false := by
      simp [List.isEmpty_iff, hareas]
    simp [load_product_context, parse_context_file, validate_context, hne,
      h1, hfoods, PyExc.msg]
  · intro content h hne hareas hfoods hguides
    subst h
    have h1 : (extract_areas content).isEmpty = false := by
      simp [List.isEmpty_iff, hareas]
    have h2 : (extract_food_options content).isEmpty = false := by
      simp [List.isEmpty_iff, hfoods]
    simp [load_product_context, parse_context_file, validate_context, hne,
      h1, h2, hguides, PyExc.msg]
  · intro e he
    cases file with
    | none =>
      simp [load_product_context] at he
      subst he
      rfl
    | some content =>
      cases hp : parse_context_file content with
      | error pe =>
        obtain ⟨m, rfl⟩ := parse_context_file_error_generic content pe hp
        simp [load_product_context, hp, PyExc.msg] at he
        subst he
        rfl
      | ok ctx =>
        simp [load_product_context, hp] at he

/-- C7 witness: a blank document fails the load with the generic wrapped
empty-file message. -/
theorem load_failure_modes_witness :
    load_product_context defaultContextPath (some "   ") =
      .error (.generic "Error loading product context: Error parsing context file: Product context file is empty") :=
  (load_failure_modes defaultContextPath (some "   ")).2.1 "   " rfl (by decide)

/-! ## Order lemmas for the lexicographic sort of `_extract_areas` -/


lemma char_toNat_inj {a b : Char} (h : a.toNat = b.toNat) : a = b := by
  have hv : a.val = b.val := by
    rcases a with ⟨av, ha⟩
    rcases b with ⟨bv, hb⟩
    simp only [Char.toNat] at h
    exact UInt32.toNat.inj h
  rcases a with ⟨av, ha⟩
  rcases b with ⟨bv, hb⟩
  simp_all

lemma pyLexLt_irrefl : ∀ x : List Char, pyLexLt x x = false
  | [] => rfl
  | a :: as => by simp [pyLexLt, pyLexLt_irrefl as]

lemma pyLexLt_conn : ∀ x y : List Char,
    pyLexLt x y = false → pyLexLt y x = false → x = y
  | [], [], _, _ => rfl
  | [], _ :: _, h1, _ => by simp [pyLexLt] at h1
  | _ :: _, [], _, h2 => by simp [pyLexLt] at h2
  | a :: as, b :: bs, h1, h2 => by
    by_cases hab : a.toNat < b.toNat
    · simp [pyLexLt, hab] at h1
    · by_cases hba : b.toNat < a.toNat
      · simp [pyLexLt, hba] at h2
      · have heq : a = b := char_toNat_inj
          (Nat.le_antisymm (Nat.le_of_not_lt hba) (Nat.le_of_not_lt hab))
        subst heq
        simp only [pyLexLt, if_neg hab] at h1 h2
        rw [pyLexLt_conn as bs h1 h2]

lemma pyLexLt_trans : ∀ x y z : List Char,
    pyLexLt x y = true → pyLexLt y z = true → pyLexLt x z = true
  | _, y, [], _, h2 => by simp [pyLexLt] at h2
  | [], _, _ :: _, _, _ => rfl
  | a :: as, [], c :: cs, h1, _ => by simp [pyLexLt] at h1
  | a :: as, b :: bs, c :: cs, h1, h2 => by
    by_cases hab : a.toNat < b.toNat
    · by_cases hbc : b.toNat < c.toNat
      · simp [pyLexLt, Nat.lt_trans hab hbc]
      · by_cases hcb : c.toNat < b.toNat
        · simp [pyLexLt, hbc, hcb] at h2
        · have heq : b = c := char_toNat_inj
            (Nat.le_antisymm (Nat.le_of_not_lt hcb) (Nat.le_of_not_lt hbc))
          subst heq
          simp [pyLexLt, hab]
    · by_cases hba : b.toNat < a.toNat
      · simp [pyLexLt, hab, hba] at h1
      · have heq : a = b := char_toNat_inj
          (Nat.le_antisymm (Nat.le_of_not_lt hba) (Nat.le_of_not_lt hab))
        subst heq
        simp only [pyLexLt, if_neg hab] at h1
        by_cases hbc : a.toNat < c.toNat
        · simp [pyLexLt, hbc]
        · by_cases hcb : c.toNat < a.toNat
          · simp [pyLexLt, hbc, hcb] at h2
          · have heq2 : a = c := char_toNat_inj
              (Nat.le_antisymm (Nat.le_of_not_lt hcb) (Nat.le_of_not_lt hbc))
            subst heq2
            simp only [pyLexLt, if_neg hbc] at h2 ⊢
            exact pyLexLt_trans as bs cs h1 h2

instance : IsTotal String pyLeRel :=
  ⟨fun a b => by
    by_cases h : pyStrLt b a = false
    · exact Or.inl h
    · right
      have h1 : pyLexLt b.data a.data = true := by
        cases hx : pyStrLt b a
        · exact absurd hx h
        · exact hx
      show pyLexLt a.data b.data = false
      cases hy : pyLexLt a.data b.data
      · rfl
      · exact absurd (pyLexLt_trans _ _ _ h1 hy) (by simp [pyLexLt_irrefl])⟩

instance : IsTrans String pyLeRel :=
  ⟨fun a b c hab hbc => by
    show pyLexLt c.data a.data = false
    cases hx : pyLexLt c.data a.data
    · rfl
    · exfalso
      have hab' : pyLexLt b.data a.data = false := hab
      have hbc' : pyLexLt c.data b.data = false := hbc
      cases hy : pyLexLt a.data b.data
      · have hd : a.data = b.data := pyLexLt_conn _ _ hy hab'
        rw [hd] at hx
        rw [hx] at hbc'
        exact Bool.noConfusion hbc'
      · have ht := pyLexLt_trans _ _ _ hx hy
        rw [ht] at hbc'
        exact Bool.noConfusion hbc'⟩

lemma string_data_inj {a b : String} (h : a.data = b.data) : a = b := by
  cases a; cases b; simp_all

lemma pySorted_sorted (l : List String) : List.Sorted pyLeRel (pySorted l) :=
  List.sorted_insertionSort pyLeRel l

lemma pySorted_nodup (l : List String) (h : l.Nodup) : (pySorted l).Nodup :=
  (List.perm_insertionSort pyLeRel l).nodup_iff.mpr h

lemma accumAreas_nodup : ∀ (raw start : List String),
    start.Nodup → (accumAreas start raw).Nodup := by
  intro raw
  induction raw with
  | nil => intro start h; exact h
  | cons m ms ih =>
    intro start h
    have hstep : accumAreas start (m :: ms) =
        accumAreas
          (if pyStrip m != "" && !(start.contains (pyStrip m)) then
            start ++ [pyStrip m]
          else start) ms := by
      simp [accumAreas]
    rw [hstep]
    apply ih
    split
    · rename_i hcond
      simp only [Bool.and_eq_true, bne_iff_ne, ne_eq, Bool.not_eq_true'] at hcond
      have hmem : pyStrip m ∉ start := by
        intro hm
        rw [(by simpa using hm : start.contains (pyStrip m) = true)] at hcond
        exact Bool.noConfusion hcond.2
      rw [List.nodup_append]
      refine ⟨h, List.nodup_singleton _, ?_⟩
      intro x hx hxa
      simp at hxa
      subst hxa
      exact hmem hx
    · exact h

lemma sorted_nodup_strict (l : List String) (hs : List.Sorted pyLeRel l)
    (hn : l.Nodup) :
    List.Pairwise (fun a b => pyStrLt a b = true) l := by
  have hp := hs.and hn
  refine hp.imp ?_
  intro a b hab
  rcases hab with ⟨hle, hne⟩
  cases hx : pyStrLt a b
  · exact absurd (string_data_inj (pyLexLt_conn _ _ hx hle)) hne
  · rfl

lemma extract_areas_sorted (content : String) :
    List.Pairwise (fun a b => pyStrLt a b = true) (extract_areas content) ∧
    (extract_areas content).Nodup := by
  have hn : (accumAreas
      (accumAreas [] (scanAll matchHeaderAt content.data))
      (scanAll matchBoldLabelAt content.data)).Nodup :=
    accumAreas_nodup _ _ (accumAreas_nodup _ _ List.nodup_nil)
  exact ⟨sorted_nodup_strict _ (pySorted_sorted _) (pySorted_nodup _ hn),
    pySorted_nodup _ hn⟩

/-- A document whose only area comes from a bold-label line (no `### `
heading), with one response guideline. -/
def bareDoc : String :=
  "**Connaught Place**: good food\n## Response Guidelines\n- Be nice\n"

/-- C6 counterexample: `bareDoc` has one extracted area and one guideline,
yet the load fails — `_validate_context` also requires non-empty
`food_options`, which stays empty when no `### ` area heading exists. -/
theorem load_valid_counterexample :
    extract_areas bareDoc = ["Connaught Place"] ∧
    extract_response_guidelines bareDoc = ["Be nice"] ∧
    load_product_context defaultContextPath (some bareDoc) =
      .error (.generic "Error loading product context: Error parsing context file: Missing required context field: food_options") :=
  ⟨by decide, by decide, rfl⟩

/-- C6 (amended): for every knowledge document whose extracted areas,
food options and response guidelines are all non-empty (the validation
requires `food_options` too, beyond the claimed areas and guidelines),
the load succeeds with `areas` exactly the extraction result, and the
extracted areas list is always strictly lexicographically sorted (by
code point) and duplicate-free. -/
theorem load_valid_succeeds_sorted (path content : String)
    (hne : pyStrip content ≠ "")
    (hareas : extract_areas content ≠ [])
    (hfoods : extract_food_options content ≠ [])
    (hguides : extract_response_guidelines content ≠ []) :
    (∃ ctx, load_product_context path (some content) = .ok ctx ∧
      ctx.areas = extract_areas content) ∧
    List.Pairwise (fun a b => pyStrLt a b = true) (extract_areas content) ∧
    (extract_areas content).Nodup := by
  have h1 : (extract_areas content).isEmpty = false := by
    simp [List.isEmpty_iff, hareas]
  have h2 : (extract_food_options content).isEmpty = false := by
    simp [List.isEmpty_iff, hfoods]
  have h3 : (extract_response_guidelines content).isEmpty = false := by
    simp [List.isEmpty_iff, hguides]
  refine ⟨⟨{ raw_content := content
             areas := extract_areas content
             food_options := extract_food_options content
             time_recommendations := extract_time_recommendations content
             budget_categories := extract_budget_categories content
             response_guidelines := extract_response_guidelines content
             local_tips := extract_local_tips content }, ?_, rfl⟩,
    (extract_areas_sorted content).1, (extract_areas_sorted content).2⟩
  simp [load_product_context, parse_context_file, validate_context, hne,
    h1, h2, h3, hareas, hguides, List.length_eq_zero]

/-- C6 witness: the sample document loads and its areas are sorted and
duplicate-free. -/
theorem load_valid_succeeds_sorted_witness :
    (∃ ctx, load_product_context defaultContextPath (some sampleDoc) = .ok ctx ∧
      ctx.areas = extract_areas sampleDoc) ∧
    List.Pairwise (fun a b => pyStrLt a b = true) (extract_areas sampleDoc) ∧
    (extract_areas sampleDoc).Nodup :=
  load_valid_succeeds_sorted defaultContextPath sampleDoc
    (by decide) (by decide) (by decide) (by decide)

/-- C8 counterexample: area resolution strips the raw input first — on a
whitespace-padded unmatched input `" Xyzzy "`, the stripped `"Xyzzy"` is
returned, not the raw string unchanged as claimed. -/
theorem process_area_counterexample :
    process_area_input " Xyzzy " sampleContext = .ok "Xyzzy" ∧
    ("Xyzzy" : String) ≠ " Xyzzy " :=
  ⟨rfl, by decide⟩

/-- C8 (amended): for every non-empty raw area string, resolution is by
this precedence on the *whitespace-stripped* input: (1) exact membership
in `doc.areas` returns the stripped string; (2) otherwise the first
case-insensitive exact match returns the canonical entry; (3) otherwise
the first substring match in either direction returns that entry; (4)
otherwise the *stripped* string is returned unchanged (soft-fail, no
error). -/
theorem process_area_resolution (ctx : Context) (area : String)
    (h : area ≠ "") :
    (pyStrip area ∈ ctx.areas →
      process_area_input area ctx = .ok (pyStrip area)) ∧
    (pyStrip area ∉ ctx.areas →
      ∀ av, ctx.areas.find? (fun x => pyLower (pyStrip area) == pyLower x) =
          some av →
        process_area_input area ctx = .ok av) ∧
    (pyStrip area ∉ ctx.areas →
      ctx.areas.find? (fun x => pyLower (pyStrip area) == pyLower x) = none →
      ∀ av, ctx.areas.find? (fun x =>
          pyIn (pyLower (pyStrip area)) (pyLower x) ||
          pyIn (pyLower x) (pyLower (pyStrip area))) = some av →
        process_area_input area ctx = .ok av) ∧
    (pyStrip area ∉ ctx.areas →
      ctx.areas.find? (fun x => pyLower (pyStrip area) == pyLower x) = none →
      ctx.areas.find? (fun x =>
          pyIn (pyLower (pyStrip area)) (pyLower x) ||
          pyIn (pyLower x) (pyLower (pyStrip area))) = none →
      process_area_input area ctx = .ok (pyStrip area)) := by
  refine ⟨?_, ?_, ?_, ?_⟩
  · intro hmem
    simp [process_area_input, h, hmem]
  · intro hmem av hfind
    simp [process_area_input, h, hmem, hfind]
  · intro hmem hci av hfind
    simp [process_area_input, h, hmem, hci, hfind]
  · intro hmem hci hsub
    simp [process_area_input, h, hmem, hci, hsub]

/-- C8 witness: the four precedence cases realized on the sample
context (`areas = ["Connaught Place", "Momos"]`). -/
theorem process_area_resolution_witness :
    process_area_input "Connaught Place" sampleContext = .ok "Connaught Place" ∧
    process_area_input "connaught place" sampleContext = .ok "Connaught Place" ∧
    process_area_input "naught" sampleContext = .ok "Connaught Place" ∧
    process_area_input "Xyzzy" sampleContext = .ok "Xyzzy" :=
  ⟨(process_area_resolution sampleContext "Connaught Place" (by decide)).1
      (by decide),
   (process_area_resolution sampleContext "connaught place" (by decide)).2.1
      (by decide) "Connaught Place" (by decide),
   (process_area_resolution sampleContext "naught" (by decide)).2.2.1
      (by decide) (by decide) "Connaught Place" (by decide),
   (process_area_resolution sampleContext "Xyzzy" (by decide)).2.2.2
      (by decide) (by decide) (by decide)⟩

/-- C5: the composed request payload is a pure, deterministic function of
the knowledge document and the normalized query alone: any two builder
instances produced by `__init__` yield byte-identical payloads on
identical `(doc, query)` inputs (there is no other state, no randomness,
no effect). -/
theorem build_prompt_deterministic (b₁ b₂ : PromptBuilder)
    (h₁ : b₁ = PromptBuilder.init) (h₂ : b₂ = PromptBuilder.init)
    (ctx₁ ctx₂ : Context) (uq₁ uq₂ : UserQuery)
    (hctx : ctx₁ = ctx₂) (huq : uq₁ = uq₂) :
    build_prompt b₁ ctx₁ uq₁ = build_prompt b₂ ctx₂ uq₂ := by
  subst h₁; subst h₂; subst hctx; subst huq; rfl

/-- C5 witness: two freshly initialized builders agree on a concrete
document and query. -/
theorem build_prompt_deterministic_witness :
    build_prompt PromptBuilder.init sampleContext
      ⟨"Connaught Place", "Evening", "momos", "Budget-friendly"⟩ =
    build_prompt PromptBuilder.init sampleContext
      ⟨"Connaught Place", "Evening", "momos", "Budget-friendly"⟩ :=
  build_prompt_deterministic PromptBuilder.init PromptBuilder.init rfl rfl
    sampleContext sampleContext _ _ rfl rfl

/-- Fallback synthesis always yields at least one recommendation: up to 3
entries from the area's food listing, or one generic entry. -/
lemma create_fallback_recommendations_len (uq : UserQuery) (ctx : Context) :
    1 ≤ (create_fallback_recommendations uq ctx).recommendations.length := by
  unfold create_fallback_recommendations
  cases hf : foodOptionsLookup ctx.food_options uq.area with
  | nil => simp
  | cons f fs => simp [hf]

/-- Post-processing always yields at least one recommendation. -/
lemma post_process_response_len (resp : RecommendationResponse)
    (uq : UserQuery) (ctx : Context) :
    1 ≤ (post_process_response resp uq ctx).recommendations.length := by
  unfold post_process_response
  cases hr : resp.recommendations with
  | nil => simp [hr, create_fallback_recommendations_len]
  | cons r rs =>
    simp only [hr, List.isEmpty_cons]
    split
    · exact create_fallback_recommendations_len uq ctx
    · split <;> simp

/-- C2 counterexample: with the transport failing, the gateway fallback
carries `area = "Error"`, which post-processing keeps (it is non-empty
and not the placeholder), so the returned set's area is `"Error"` even
though the requested area `"Connaught Place"` is non-empty — while the
at-least-one-recommendation half still holds on this run. -/
theorem get_recommendations_area_counterexample :
    ¬ ((get_recommendations envTO (.ok sampleContext) [] "Connaught Place"
        "Evening" "momos" "Budget-friendly").1.area = .str "Connaught Place") ∧
    (get_recommendations envTO (.ok sampleContext) [] "Connaught Place"
      "Evening" "momos" "Budget-friendly").1.area = .str "Error" ∧
    1 ≤ (get_recommendations envTO (.ok sampleContext) [] "Connaught Place"
      "Evening" "momos" "Budget-friendly").1.recommendations.length := by
  refine ⟨?_, rfl, by decide⟩
  intro hcontra
  have h : JsonValue.str "Error" = JsonValue.str "Connaught Place" := hcontra
  rw [JsonValue.str.injEq] at h
  exact absurd h (by decide)

/-- C2 (amended): every orchestrator result has at least one
recommendation; and the returned `area` equals the requested area when
the requested area is non-empty, whitespace-free, and an exact member of
the loaded `doc.areas`, *provided* the interpreted reply's own area field
is empty or the `"Unknown Area"` placeholder (only then does
post-processing force the query's area; a reply carrying a different
non-empty area — such as the gateway fallback's `"Error"` — is kept). -/
theorem get_recommendations_shape (env : KiroEnv)
    (loadRes : Except PyExc Context) (cache : KiroCache)
    (area tp fp bc : String) :
    1 ≤ (get_recommendations env loadRes cache area tp fp bc).1.recommendations.length ∧
    (∀ ctx, loadRes = .ok ctx → pyStrip area = area → area ∈ ctx.areas →
      area ≠ "" →
      ∀ prompt, build_prompt PromptBuilder.init ctx ⟨area, tp, fp, bc⟩ = .ok prompt →
        (!(KiroClient.query env cache prompt).1.area.truthy ||
          areaIsUnknown (KiroClient.query env cache prompt).1.area) = true →
        (get_recommendations env loadRes cache area tp fp bc).1.area =
          .str area) := by
  constructor
  · unfold get_recommendations
    cases loadRes with
    | error e => simp [create_error_response]
    | ok ctx =>
      cases hp : process_area_input area ctx with
      | error m => simp [hp, create_error_response]
      | ok pa =>
        cases hb : build_prompt PromptBuilder.init ctx ⟨pa, tp, fp, bc⟩ with
        | error m => simp [hp, hb, create_error_response]
        | ok prompt => simp [hp, hb, post_process_response_len]
  · intro ctx hload hstrip hmem hne prompt hbuild hplace
    subst hload
    have hp : process_area_input area ctx = .ok area := by
      simp [process_area_input, hne, hstrip, hmem]
    unfold get_recommendations
    dsimp only
    rw [hp]
    dsimp only
    rw [hbuild]
    dsimp only
    unfold post_process_response
    cases hrecs : (KiroClient.query env cache prompt).1.recommendations with
    | nil => simp [hrecs, create_fallback_recommendations]
    | cons r rs =>
      simp only [hrecs, List.isEmpty_cons, Bool.false_eq_true, if_false]
      rw [if_pos]
      exact hplace

/-- C2 witness: in the offline environment whose decoded reply carries
the `"Unknown Area"` placeholder, with the requested area an exact member
of the loaded areas, the returned area equals the requested area, and at
least one recommendation is present. -/
theorem get_recommendations_shape_witness :
    (get_recommendations envMock (.ok sampleContext) [] "Connaught Place"
      "Evening" "momos" "Budget-friendly").1.area = .str "Connaught Place" ∧
    1 ≤ (get_recommendations envMock (.ok sampleContext) [] "Connaught Place"
      "Evening" "momos" "Budget-friendly").1.recommendations.length :=
  ⟨(get_recommendations_shape envMock (.ok sampleContext) [] "Connaught Place"
      "Evening" "momos" "Budget-friendly").2 sampleContext rfl (by decide)
      (by decide) (by decide) _ rfl rfl,
   (get_recommendations_shape envMock (.ok sampleContext) [] "Connaught Place"
      "Evening" "momos" "Budget-friendly").1⟩
